import Mathlib

/-!
Shallow embedding of the synchronization core of `Zoxc/rayon` (rayon-core):
`flex_scope/mod.rs`, `jobserver.rs`, `tlv.rs`, `worker_local.rs`.

Every piece of mutable state in the source lives under a single mutex
(`FlexScope.data : Mutex<Option<ActiveFlexScope>>`,
`ProxyData.lock : Mutex<LockedProxyData>`), so each critical section is
embedded as a pure function from the locked state to the locked state,
together with an explicit record of its externally visible effects
(condvar wakes, broker requests, token handles dropped, jobs injected).
An execution of one scope activation cycle is a list of lock
acquisitions (the order in which threads enter the critical sections),
folded over the state.  `usize` is embedded as `Nat` together with the
explicit bound `USIZE_MAX`; the only place the source compares against
the bound (`FlexScope::spawn`) does so explicitly, so no modular
reduction is needed elsewhere.  A Rust panic / unwind payload is an
opaque value, embedded as `Nat`; a fatal assertion or `expect` is
embedded as `Except.error` carrying the panic message.
-/

namespace RayonCore

/-- The value of `std::usize::MAX` on the 64-bit targets the crate is built for. -/
def USIZE_MAX : Nat := 2 ^ 64 - 1

/-- Opaque panic payload (`Box<dyn Any + Send>` in the source). -/
abbrev PanicPayload := Nat

/-- `ActiveFlexScope` (flex_scope/mod.rs:11-25): the state stored inside
`FlexScope.data` while the scope is activated.  The `registry` field (an
`Arc<Registry>` handle used only to inject jobs) is represented by the
identity of the pool being irrelevant to the claims about this state, so
it is omitted; `tlv` is the ambient thread-local value captured at
activation. -/
structure ActiveFlexScope where
  panic : Option PanicPayload
  active_jobs : Nat
  terminated : Bool
  tlv : Nat
deriving Repr, DecidableEq

/-- The state installed by `FlexScope::activate` (flex_scope/mod.rs:44-53):
`active_jobs = 1`, no panic, not terminated, `tlv` snapshotted from the
activating thread via `tlv::get()`. -/
def initScope (tlv0 : Nat) : ActiveFlexScope :=
  { panic := none, active_jobs := 1, terminated := false, tlv := tlv0 }

/-- `FlexScope::spawn` (flex_scope/mod.rs:83-100), as a function of the
locked `Option<ActiveFlexScope>`.  On success it returns the updated
state together with the `tlv` value the new `HeapJob` carries
(`HeapJob::new(data.tlv, ...)`, line 91) before the job is handed to
`registry.inject_or_push`.  The three failure paths are the `expect` on
a deactivated scope and the two `assert!`s. -/
def flexSpawn (data : Option ActiveFlexScope) : Except String (ActiveFlexScope × Nat) :=
  match data with
  | none => .error "the scope is not active"
  | some d =>
    if d.terminated then .error "the scope is terminated"
    else if d.active_jobs = USIZE_MAX then
      .error "assertion failed: data.active_jobs != std::usize::MAX"
    else .ok ({ d with active_jobs := d.active_jobs + 1 }, d.tlv)

/-- `FlexScope::spawn` never reads the calling thread's ambient context;
this wrapper makes that explicit by taking the caller's current `tlv`
value and ignoring it, exactly as the source does. -/
def flexSpawnFrom (_callerTlv : Nat) (data : Option ActiveFlexScope) :
    Except String (ActiveFlexScope × Nat) :=
  flexSpawn data

/-- The critical section of `FlexScope::execute_job` (flex_scope/mod.rs:102-116),
entered after `unwind::halt_unwinding(f)` has produced `result` (`Ok r`
for a normal return of the closure, `Err p` for a caught unwind with
payload `p`).  Decrements `active_jobs`, marks the scope terminated when
the count hits 0, and on a caught panic overwrites the `panic` slot.
Returns the new state and the `Option<R>` the source returns. -/
def execute_job {R : Type} (d : ActiveFlexScope) (result : Except PanicPayload R) :
    ActiveFlexScope × Option R :=
  let aj := d.active_jobs - 1
  let term := if aj = 0 then true else d.terminated
  match result with
  | .ok r => ({ d with active_jobs := aj, terminated := term }, some r)
  | .error p => ({ d with active_jobs := aj, terminated := term, panic := some p }, none)

/-- One lock acquisition on the scope during a cycle, other than the
initial closure's own `execute_job`: a successful `spawn` (which bumps
`active_jobs`) or the completing half of `execute_job` for a spawned job
(whose closure returns `()`), with the closure's caught outcome. -/
inductive ScopeEvent where
  | spawnEv
  | completeEv (r : Except PanicPayload Unit)
deriving Repr

/-- The state change a `ScopeEvent` performs on the locked scope state:
`spawnEv` is the `active_jobs += 1` of a successful `spawn`,
`completeEv r` is `execute_job`'s critical section. -/
def applyEvent (d : ActiveFlexScope) : ScopeEvent → ActiveFlexScope
  | .spawnEv => { d with active_jobs := d.active_jobs + 1 }
  | .completeEv r => (execute_job d r).1

/-- Fold a lock-acquisition-ordered list of events over the scope state. -/
def applyEvents (d : ActiveFlexScope) (evs : List ScopeEvent) : ActiveFlexScope :=
  evs.foldl applyEvent d

/-- One legal transition of the locked scope state during an activation
cycle: either some thread's `spawn` succeeds (`flexSpawn` returns `ok`),
or an outstanding job's `execute_job` critical section runs.  A
completion can only happen while the job it accounts for is still
counted, hence `0 < d.active_jobs`. -/
inductive ScopeStep : ActiveFlexScope → ActiveFlexScope → Prop where
  | spawn {d d' : ActiveFlexScope} {jt : Nat}
      (h : flexSpawn (some d) = .ok (d', jt)) : ScopeStep d d'
  | complete {d : ActiveFlexScope} (r : Except PanicPayload Unit)
      (h : 0 < d.active_jobs) : ScopeStep d (execute_job d r).1

/-- The scope states reachable during one activation cycle that started
with ambient context `tlv0` on the activating thread. -/
def ScopeReachable (tlv0 : Nat) (d : ActiveFlexScope) : Prop :=
  Relation.ReflTransGen ScopeStep (initScope tlv0) d

/-- The outcome of `FlexScope::activate` (flex_scope/mod.rs:66-80): after
the wait, the recorded panic is taken and the state cleared; a recorded
panic is re-raised by `unwind::resume_unwinding`, otherwise
`result.unwrap()` returns the initial closure's value (`unwrapPanic`
marks the `unwrap` panic on `None`, which the development proves
unreachable). -/
inductive ActivateOutcome (R : Type) where
  | normal (r : R)
  | reraise (p : PanicPayload)
  | unwrapPanic
deriving Repr, DecidableEq

/-- Lines 66-80 of `activate`: take the panic out of the locked state,
deactivate the scope (`*data = None`), then either resume the panic or
unwrap the initial closure's result. -/
def finishActivate {R : Type} (d : ActiveFlexScope) (result : Option R) : ActivateOutcome R :=
  match d.panic with
  | some p => .reraise p
  | none =>
    match result with
    | some r => .normal r
    | none => .unwrapPanic

/-- A whole activation cycle of `FlexScope::activate` (flex_scope/mod.rs:40-81)
with the critical sections in lock-acquisition order: the state is
initialized with `active_jobs = 1` and the snapshotted `tlv0`; the
events in `pre` (spawns, and completions of spawned jobs that finish
early) acquire the lock before the initial closure's own `execute_job`,
whose caught outcome is `r0`; the events in `post` acquire it after,
while the activating thread waits for `active_jobs = 0`; finally the
panic slot is drained and the result returned. -/
def runActivate {R : Type} (tlv0 : Nat) (pre : List ScopeEvent)
    (r0 : Except PanicPayload R) (post : List ScopeEvent) : ActivateOutcome R :=
  let d1 := applyEvents (initScope tlv0) pre
  let step := execute_job d1 r0
  let d3 := applyEvents step.1 post
  finishActivate d3 step.2

/-- The panic payload a `ScopeEvent` stores, if any. -/
def eventFailure : ScopeEvent → Option PanicPayload
  | .completeEv (.error p) => some p
  | _ => none

/-- All failures recorded during a cycle, in lock-acquisition order: the
spawned-job failures before the initial closure's `execute_job`, the
initial closure's own failure if it unwound, then the rest. -/
def cycleFailures {R : Type} (pre : List ScopeEvent) (r0 : Except PanicPayload R)
    (post : List ScopeEvent) : List PanicPayload :=
  pre.filterMap eventFailure ++
    (match r0 with | .error p => [p] | .ok _ => []) ++
    post.filterMap eventFailure

/-- The `tlv::set(tlv)` on line 64 of `activate`: after the wait, the
owning thread's ambient context (possibly clobbered at `clobbered` by
jobs it executed while blocked) is overwritten with the activation-time
snapshot, before the panic is extracted. -/
def ownerTlvAfterWait (snapshot _clobbered : Nat) : Nat :=
  snapshot

/-- `LockedProxyData` (jobserver.rs:5-18): the mutex-guarded state of the
jobserver proxy.  A stored `Acquired` token handle is opaque; it is
embedded as a `Nat` identity so that which handle is dropped is
observable. -/
structure LockedProxyData where
  free : Nat
  waiters : Nat
  requested : Nat
  tokens : List Nat
deriving Repr, DecidableEq

/-- The externally visible effects of one jobserver critical section:
how many `HelperThread::request_token` calls went to the broker, how
many `Condvar::notify_one` wakes were issued, and which token handles
were dropped (dropping an `Acquired` releases it to the broker). -/
structure Effects where
  brokerRequests : Nat
  wakes : Nat
  dropped : List Nat
deriving Repr, DecidableEq

/-- No externally visible effect. -/
def noEffects : Effects := { brokerRequests := 0, wakes := 0, dropped := [] }

/-- `LockedProxyData::request_token` (jobserver.rs:21-24): bump
`requested` and ask the broker's helper thread for one more token. -/
def LockedProxyData.request_token (s : LockedProxyData) : LockedProxyData × Effects :=
  ({ s with requested := s.requested + 1 },
   { brokerRequests := 1, wakes := 0, dropped := [] })

/-- `LockedProxyData::return_token` (jobserver.rs:26-39): with waiters
present, recycle the permit locally (`free += 1`, wake one); otherwise
either the implicit permit becomes free again (no stored handles) or
the most recently stored handle is popped and dropped, releasing it to
the broker. -/
def LockedProxyData.return_token (s : LockedProxyData) : LockedProxyData × Effects :=
  if 0 < s.waiters then
    ({ s with free := s.free + 1 }, { brokerRequests := 0, wakes := 1, dropped := [] })
  else
    match s.tokens.getLast? with
    | none => ({ s with free := s.free + 1 }, noEffects)
    | some t =>
      ({ s with tokens := s.tokens.dropLast },
       { brokerRequests := 0, wakes := 0, dropped := [t] })

/-- `LockedProxyData::take_token` (jobserver.rs:41-56): the fast path a
waiter attempts.  With a free permit, take it (`free -= 1`,
`waiters -= 1`) and, if supply (`requested + free`) now trails the
remaining waiters, pipeline one more broker request; report success.
Without a free permit, change nothing and report failure. -/
def LockedProxyData.take_token (s : LockedProxyData) : Bool × LockedProxyData × Effects :=
  if 0 < s.free then
    let s1 := { s with free := s.free - 1, waiters := s.waiters - 1 }
    if s1.requested + s1.free < s1.waiters then
      let r := s1.request_token
      (true, r.1, r.2)
    else
      (true, s1, noEffects)
  else
    (false, s, noEffects)

/-- `LockedProxyData::new_requested_token` (jobserver.rs:58-70): the
asynchronous grant callback installed in `Proxy::from_env`
(jobserver.rs:104-108).  Decrements `requested`; if waiters remain the
token is kept (`free += 1`, handle stored, one waiter woken), otherwise
the handle is dropped straight back to the broker. -/
def LockedProxyData.new_requested_token (s : LockedProxyData) (token : Nat) :
    LockedProxyData × Effects :=
  let s1 := { s with requested := s.requested - 1 }
  if 0 < s1.waiters then
    ({ s1 with free := s1.free + 1, tokens := s1.tokens ++ [token] },
     { brokerRequests := 0, wakes := 1, dropped := [] })
  else
    (s1, { brokerRequests := 0, wakes := 0, dropped := [token] })

/-- `Proxy::return_token` (jobserver.rs:123-127): a no-op without a
broker (`thread.is_none()`), otherwise `LockedProxyData::return_token`
under the lock. -/
def Proxy.return_token (hasBroker : Bool) (s : LockedProxyData) : LockedProxyData × Effects :=
  if hasBroker then s.return_token else (s, noEffects)

/-- `Proxy::acquire_token` (jobserver.rs:129-145) up to its first
suspension: a no-op without a broker; with one, increment `waiters`, try
`take_token`, and either return satisfied (`Bool` component `false` = not
blocked) or issue one broker request and block on the condition
variable (`true` = blocked; each subsequent wake re-runs `take_token`,
modelled by `acquireWake`). -/
def Proxy.acquire_token (hasBroker : Bool) (s : LockedProxyData) :
    LockedProxyData × Effects × Bool :=
  if hasBroker then
    let s1 := { s with waiters := s.waiters + 1 }
    let t := s1.take_token
    if t.1 then
      (t.2.1, t.2.2, false)
    else
      let r := t.2.1.request_token
      (r.1, { brokerRequests := t.2.2.brokerRequests + r.2.brokerRequests,
              wakes := t.2.2.wakes + r.2.wakes,
              dropped := t.2.2.dropped ++ r.2.dropped }, true)
  else
    (s, noEffects, false)

/-- The body of `acquire_token`'s wake loop (jobserver.rs:138-143): each
time the condition variable wakes the blocked thread it re-attempts
exactly `take_token`, returning to waiting when it fails. -/
def Proxy.acquireWake (s : LockedProxyData) : Bool × LockedProxyData × Effects :=
  s.take_token

/-- One ambient-context mutation performed by code running under
`tlv::with` (tlv.rs): the only mutation the interface offers is
`set`. -/
inductive TlvOp where
  | setOp (v : Nat)
deriving Repr, DecidableEq

/-- Apply one `tlv::set` to the thread's cell. -/
def tlvApply (_cur : Nat) : TlvOp → Nat
  | .setOp v => v

/-- Apply a sequence of `tlv::set` calls in order. -/
def tlvApplyOps (cur : Nat) (ops : List TlvOp) : Nat :=
  ops.foldl tlvApply cur

/-- `tlv::with` (tlv.rs:11-21) as a thread-local-state transformer.  The
calling thread's cell starts at `cur`; the `Reset` guard saves it, the
cell is set to `value`, then `f` runs — performing the `set` calls in
`fOps` and finishing with outcome `fres` (`ok` for a normal return,
`error` for an unwind) — and the guard's `Drop` restores the saved value
on both exit paths before the outcome propagates.  Returns the
propagated outcome and the final cell value. -/
def tlvWith {R : Type} (cur value : Nat) (fOps : List TlvOp)
    (fres : Except PanicPayload R) : Except PanicPayload R × Nat :=
  let saved := cur
  let entry := tlvApply cur (.setOp value)
  let afterF := tlvApplyOps entry fOps
  let final := tlvApply afterF (.setOp saved)
  (fres, final)

/-- The pool a `WorkerLocal` is bound to (worker_local.rs): only its
pointer identity (used by `thread_check`'s registry comparison) and its
`num_threads()` matter here. -/
structure Registry where
  id : Nat
  num_threads : Nat
deriving Repr, DecidableEq

/-- What `WorkerThread::unsafe_current()` exposes about the calling
thread when it is a worker: the identity of the registry it belongs to
and its worker index.  A non-worker thread has none (null pointer). -/
structure WorkerThreadState where
  registryId : Nat
  index : Nat
deriving Repr, DecidableEq

/-- The panic message of `wrong_thread` (worker_local.rs:21-25). -/
def wrongThreadMsg : String :=
  "WorkerLocal can only be used on the thread pool it was created on"

/-- `thread_check` (worker_local.rs:28-39): panic unless the calling
thread is a worker whose registry is pointer-identical to `reg`;
otherwise return its worker index. -/
def thread_check (reg : Registry) (wt : Option WorkerThreadState) : Except String Nat :=
  match wt with
  | none => .error wrongThreadMsg
  | some w =>
    if w.registryId ≠ reg.id then .error wrongThreadMsg
    else .ok w.index

/-- `WorkerLocal<T>` (worker_local.rs:13-16): one slot per worker index
of the bound registry.  The source's cache-line padding
(`CacheAligned`) is a layout property with no observable value, so the
slots are held directly. -/
structure WorkerLocal (T : Type) where
  locals : List T
  registry : Registry

/-- `WorkerLocal::new` (worker_local.rs:45-53): one independently
initialized slot per worker index `0..num_threads`.  The source obtains
the registry from the ambient `Registry::current()`; it is passed
explicitly here. -/
def WorkerLocal.new {T : Type} (registry : Registry) (initial : Nat → T) : WorkerLocal T :=
  { locals := (List.range registry.num_threads).map initial, registry }

/-- `WorkerLocal::into_inner` (worker_local.rs:57-59). -/
def WorkerLocal.into_inner {T : Type} (wl : WorkerLocal T) : List T :=
  wl.locals

/-- `WorkerLocal::current` (worker_local.rs:61-66), also the target of
the `Deref` impl: run `thread_check` against the bound registry, then
index the slots.  The source indexes with `get_unchecked`; the
embedding uses the checked lookup, so an out-of-bounds index (undefined
behaviour in the source) surfaces as `ok none`. -/
def WorkerLocal.current {T : Type} (wl : WorkerLocal T) (wt : Option WorkerThreadState) :
    Except String (Option T) :=
  match thread_check wl.registry wt with
  | .error e => .error e
  | .ok idx => .ok wl.locals[idx]?

/-! ## Basic facts about the embedded operations -/

lemma execute_job_active {R : Type} (d : ActiveFlexScope) (r : Except PanicPayload R) :
    (execute_job d r).1.active_jobs = d.active_jobs - 1 := by
  cases r <;> rfl

lemma execute_job_terminated {R : Type} (d : ActiveFlexScope) (r : Except PanicPayload R) :
    (execute_job d r).1.terminated =
      (if d.active_jobs - 1 = 0 then true else d.terminated) := by
  cases r <;> rfl

lemma execute_job_tlv {R : Type} (d : ActiveFlexScope) (r : Except PanicPayload R) :
    (execute_job d r).1.tlv = d.tlv := by
  cases r <;> rfl

lemma execute_job_panic {R : Type} (d : ActiveFlexScope) (r : Except PanicPayload R) :
    (execute_job d r).1.panic =
      (match r with | .error p => some p | .ok _ => d.panic) := by
  cases r <;> rfl

lemma execute_job_snd {R : Type} (d : ActiveFlexScope) (r : Except PanicPayload R) :
    (execute_job d r).2 = (match r with | .error _ => none | .ok v => some v) := by
  cases r <;> rfl

/-- A successful `flexSpawn` means the scope was active and not
terminated, the counter was below `USIZE_MAX` and got bumped by one, and
the spawned job carries the scope's captured `tlv`. -/
lemma flexSpawn_ok {d d' : ActiveFlexScope} {jt : Nat}
    (h : flexSpawn (some d) = .ok (d', jt)) :
    d.terminated = false ∧ d.active_jobs ≠ USIZE_MAX ∧
      d' = { d with active_jobs := d.active_jobs + 1 } ∧ jt = d.tlv := by
  have hterm : d.terminated = false := by
    by_contra hb
    rw [Bool.not_eq_false] at hb
    simp [flexSpawn, hb] at h
  by_cases hm : d.active_jobs = USIZE_MAX
  · simp [flexSpawn, hterm, hm] at h
  · simp [flexSpawn, hterm, hm, Prod.ext_iff] at h
    obtain ⟨hd', hjt⟩ := h
    refine ⟨hterm, hm, ?_, hjt.symm⟩
    rw [← hd']
    simp [hterm]

/-- One `ScopeStep` preserves the cycle invariant. -/
lemma scope_step_inv {tlv0 : Nat} {d d' : ActiveFlexScope} (hstep : ScopeStep d d')
    (ih : (d.terminated = true ↔ d.active_jobs = 0) ∧ d.tlv = tlv0) :
    (d'.terminated = true ↔ d'.active_jobs = 0) ∧ d'.tlv = tlv0 := by
  cases hstep with
  | spawn hs =>
    rcases flexSpawn_ok hs with ⟨hterm, -, hd', -⟩
    subst hd'
    exact ⟨by simp [hterm], ih.2⟩
  | complete r hpos =>
    refine ⟨?_, (execute_job_tlv d r).trans ih.2⟩
    rw [execute_job_terminated, execute_job_active]
    have hterm : d.terminated = false := by
      cases hb : d.terminated
      · rfl
      · exact absurd (ih.1.mp hb) (by omega)
    by_cases h0 : d.active_jobs - 1 = 0 <;> simp [h0, hterm]

/-- Invariant of one activation cycle: in every reachable scope state the
`terminated` flag holds exactly when the live-job count is zero, and the
captured ambient context is still the activation-time snapshot. -/
lemma scope_inv {tlv0 : Nat} {d : ActiveFlexScope} (h : ScopeReachable tlv0 d) :
    (d.terminated = true ↔ d.active_jobs = 0) ∧ d.tlv = tlv0 := by
  induction h with
  | refl => simp [initScope]
  | tail _ hstep ih => exact scope_step_inv hstep ih

/-! ## The claims -/

/-- Claim C1: `spawn` on a scope that is not currently activated, or
whose `terminated` flag is set, fails with the corresponding fatal
assertion; in particular it never increments the job counter and never
hands a job to the pool once `terminated` is true (the error carries no
updated state and no injected job). -/
theorem spawn_rejected_when_inactive_or_terminated (d : ActiveFlexScope)
    (h : d.terminated = true) :
    flexSpawn none = .error "the scope is not active" ∧
    flexSpawn (some d) = .error "the scope is terminated" :=
  ⟨rfl, by simp [flexSpawn, h]⟩

/-- Witness for C1 at a concrete terminated scope state. -/
theorem spawn_rejected_when_inactive_or_terminated_witness :
    flexSpawn none = .error "the scope is not active" ∧
    flexSpawn (some { panic := none, active_jobs := 0, terminated := true, tlv := 0 }) =
      .error "the scope is terminated" :=
  spawn_rejected_when_inactive_or_terminated
    { panic := none, active_jobs := 0, terminated := true, tlv := 0 } rfl

/-- Claim C10: a `spawn` that finds the live-job counter at
`usize::MAX` aborts on the assertion `active_jobs != std::usize::MAX`
instead of wrapping the counter to 0. -/
theorem spawn_counter_overflow_assert (d : ActiveFlexScope)
    (hterm : d.terminated = false) (hmax : d.active_jobs = USIZE_MAX) :
    flexSpawn (some d) = .error "assertion failed: data.active_jobs != std::usize::MAX" := by
  simp [flexSpawn, hterm, hmax]

/-- Witness for C10 at a concrete saturated counter. -/
theorem spawn_counter_overflow_assert_witness :
    flexSpawn (some { panic := none, active_jobs := USIZE_MAX, terminated := false, tlv := 0 }) =
      .error "assertion failed: data.active_jobs != std::usize::MAX" :=
  spawn_counter_overflow_assert
    { panic := none, active_jobs := USIZE_MAX, terminated := false, tlv := 0 } rfl rfl

/-- Claim C2: `activate` seeds the state with `active_jobs = 1` and
`terminated = false`; in every reachable state of the cycle `terminated`
holds exactly when `active_jobs` is zero (so it is false while jobs are
live); and a job completion on a live counter decrements it by exactly
one, setting `terminated` precisely when that decrement drives the
counter to zero. -/
theorem scope_lifecycle_invariant (tlv0 : Nat) (d : ActiveFlexScope)
    (r : Except PanicPayload Unit) (h : ScopeReachable tlv0 d) :
    ((initScope tlv0).active_jobs = 1 ∧ (initScope tlv0).terminated = false) ∧
    (d.terminated = true ↔ d.active_jobs = 0) ∧
    (0 < d.active_jobs →
      (execute_job d r).1.active_jobs + 1 = d.active_jobs ∧
      ((execute_job d r).1.terminated = true ↔ d.active_jobs = 1)) := by
  obtain ⟨hinv, -⟩ := scope_inv h
  refine ⟨⟨rfl, rfl⟩, hinv, fun hpos => ?_⟩
  have hterm : d.terminated = false := by
    cases hb : d.terminated
    · rfl
    · exact absurd (hinv.mp hb) (by omega)
  constructor
  · rw [execute_job_active]; omega
  · rw [execute_job_terminated]
    by_cases h0 : d.active_jobs - 1 = 0 <;> simp [h0, hterm] <;> omega

/-- Witness for C2 on the freshly activated state. -/
theorem scope_lifecycle_invariant_witness :
    (initScope 0).active_jobs = 1 ∧
    ((execute_job (initScope 0) (Except.ok ())).1.terminated = true ↔
      (initScope 0).active_jobs = 1) :=
  ⟨(scope_lifecycle_invariant 0 (initScope 0) (.ok ()) Relation.ReflTransGen.refl).1.1,
   ((scope_lifecycle_invariant 0 (initScope 0) (.ok ()) Relation.ReflTransGen.refl).2.2
      (by decide)).2⟩

/-- Claim C4: a job spawned anywhere in the cycle carries the ambient
context snapshotted when `activate` began (`jt = tlv0`), `spawn`'s
result does not depend on the spawning thread's own ambient context, and
after the wait `activate` overwrites the owning thread's (possibly
clobbered) ambient context with that same snapshot before the failure is
extracted. -/
theorem scope_tlv_propagation (tlv0 c1 c2 clobbered : Nat) (d d' : ActiveFlexScope)
    (jt : Nat) (h : ScopeReachable tlv0 d) (hs : flexSpawn (some d) = .ok (d', jt)) :
    jt = tlv0 ∧
    flexSpawnFrom c1 (some d) = flexSpawnFrom c2 (some d) ∧
    ownerTlvAfterWait tlv0 clobbered = tlv0 := by
  obtain ⟨-, htlv⟩ := scope_inv h
  obtain ⟨-, -, -, hjt⟩ := flexSpawn_ok hs
  exact ⟨hjt.trans htlv, rfl, rfl⟩

/-- Witness for C4: spawning from the freshly activated state of a scope
activated with ambient context 3 hands the job the value 3. -/
theorem scope_tlv_propagation_witness :
    (3 : Nat) = 3 ∧
    flexSpawnFrom 7 (some (initScope 3)) = flexSpawnFrom 9 (some (initScope 3)) ∧
    ownerTlvAfterWait 3 5 = 3 :=
  scope_tlv_propagation 3 7 9 5 (initScope 3)
    { panic := none, active_jobs := 2, terminated := false, tlv := 3 } 3
    Relation.ReflTransGen.refl rfl

/-- Last element of an appended list, by cases on the second part. -/
lemma getLast?_append_eq {α : Type} (l1 l2 : List α) :
    (l1 ++ l2).getLast? =
      match l2.getLast? with
      | some x => some x
      | none => l1.getLast? := by
  cases hl : l2.getLast? with
  | none =>
    rw [List.getLast?_eq_none_iff] at hl
    simp [hl]
  | some x =>
    have hne : l2 ≠ [] := by
      intro he
      rw [he] at hl
      simp at hl
    rw [List.getLast?_append_of_ne_nil l1 hne, hl]

/-- One `ScopeEvent` leaves the panic slot alone unless it is the
completion of a failed job, in which case it overwrites it. -/
lemma applyEvent_panic (d : ActiveFlexScope) (e : ScopeEvent) :
    (applyEvent d e).panic =
      match eventFailure e with
      | some p => some p
      | none => d.panic := by
  cases e with
  | spawnEv => rfl
  | completeEv r => cases r <;> rfl

/-- Folding a list of events over the scope state leaves the panic slot
holding the last failure recorded by those events, or the incoming value
if none of them failed. -/
lemma applyEvents_panic (d : ActiveFlexScope) (evs : List ScopeEvent) :
    (applyEvents d evs).panic =
      match (evs.filterMap eventFailure).getLast? with
      | some p => some p
      | none => d.panic := by
  induction evs using List.reverseRecOn with
  | nil => simp [applyEvents]
  | append_singleton l e ih =>
    rw [applyEvents, List.foldl_append]
    rw [show (l.foldl applyEvent d) = applyEvents d l from rfl]
    rw [List.foldl_cons, List.foldl_nil, applyEvent_panic,
      List.filterMap_append l [e] eventFailure]
    cases he : eventFailure e with
    | none =>
      simp only [he]
      rw [show List.filterMap eventFailure [e] = [] by simp [he]]
      rw [List.append_nil, ih]
    | some p =>
      simp only [he]
      rw [show List.filterMap eventFailure [e] = [p] by simp [he]]
      rw [List.getLast?_concat]

/-- Claim C3: every job body runs under the halt-unwinding wrapper and a
caught failure overwrites the scope's panic slot under the lock, so the
failure that survives a cycle is exactly the last one in
lock-acquisition order, and `activate` re-raises exactly it; when no job
failed, `activate` returns the initial closure's value (and a failure-free
cycle forces the initial closure to have returned normally, so the
`unwrap` in `activate` cannot panic). -/
theorem scope_failure_last_writer_wins {R : Type} (tlv0 : Nat)
    (pre : List ScopeEvent) (r0 : Except PanicPayload R) (post : List ScopeEvent) :
    (runActivate tlv0 pre r0 post =
      match (cycleFailures pre r0 post).getLast?, r0 with
      | some p, _ => .reraise p
      | none, .ok v => .normal v
      | none, .error _ => .unwrapPanic) ∧
    (cycleFailures pre r0 post = [] →
      ∃ v, r0 = .ok v ∧ runActivate tlv0 pre r0 post = .normal v) := by
  have hpanic : (applyEvents (execute_job (applyEvents (initScope tlv0) pre) r0).1 post).panic =
      match (cycleFailures pre r0 post).getLast? with
      | some p => some p
      | none => none := by
    rw [applyEvents_panic, execute_job_panic, applyEvents_panic]
    simp only [cycleFailures]
    rw [getLast?_append_eq, getLast?_append_eq]
    cases hpost : (post.filterMap eventFailure).getLast? with
    | some p => simp
    | none =>
      cases r0 with
      | error p => simp
      | ok v =>
        simp only [List.getLast?_nil]
        cases (pre.filterMap eventFailure).getLast? <;> simp [initScope]
  constructor
  · rw [runActivate, finishActivate.eq_def]
    cases hfail : (cycleFailures pre r0 post).getLast? with
    | some p =>
      rw [hfail] at hpanic
      simp only [hpanic]
    | none =>
      rw [hfail] at hpanic
      simp only [hpanic]
      cases r0 with
      | ok v => rw [execute_job_snd]
      | error p =>
        exfalso
        have hmem : p ∈ cycleFailures pre (Except.error p : Except PanicPayload R) post := by
          simp [cycleFailures]
        rw [List.getLast?_eq_none_iff] at hfail
        rw [hfail] at hmem
        exact absurd hmem (List.not_mem_nil p)
  · intro hnil
    cases r0 with
    | error p =>
      exfalso
      have hmem : p ∈ cycleFailures pre (Except.error p : Except PanicPayload R) post := by
        simp [cycleFailures]
      rw [hnil] at hmem
      exact absurd hmem (List.not_mem_nil p)
    | ok v =>
      refine ⟨v, rfl, ?_⟩
      rw [runActivate, finishActivate.eq_def]
      rw [hnil] at hpanic
      simp only [List.getLast?_nil] at hpanic
      simp only [hpanic]
      rw [execute_job_snd]

/-- Witness for C3: with an early failure 7, a successful initial
closure returning 42, and a late failure 9, the cycle re-raises exactly
the failure whose `execute_job` acquired the lock last, namely 9. -/
theorem scope_failure_last_writer_wins_witness :
    runActivate 0 [ScopeEvent.completeEv (Except.error 7)] (Except.ok (42 : Nat))
      [ScopeEvent.spawnEv, ScopeEvent.completeEv (Except.error 9)] =
      ActivateOutcome.reraise 9 := by
  have h := (scope_failure_last_writer_wins 0 [ScopeEvent.completeEv (Except.error 7)]
    (Except.ok (42 : Nat)) [ScopeEvent.spawnEv, ScopeEvent.completeEv (Except.error 9)]).1
  simpa using h

/-- Claim C5: with a broker present, `acquire_token` increments
`waiters` and tries the fast path.  With a free permit it takes it
(`free -= 1`, net `waiters` unchanged) and returns unblocked, issuing
exactly one pipeline broker request precisely when the remaining supply
`requested + free` trails the remaining waiters; with no free permit it
issues exactly one broker request and blocks.  Each condition-variable
wake re-runs exactly the `take_token` fast path: success consumes a
permit as above, failure leaves the state untouched and the thread
blocked again (it is only ever re-run on a wake, never by polling). -/
theorem proxy_acquire_token_protocol (s s' : LockedProxyData) :
    (0 < s.free →
      Proxy.acquire_token true s =
        (if s.requested + (s.free - 1) < s.waiters then
          ({ s with free := s.free - 1, requested := s.requested + 1 },
           { brokerRequests := 1, wakes := 0, dropped := [] }, false)
        else
          ({ s with free := s.free - 1 }, noEffects, false))) ∧
    (s.free = 0 →
      Proxy.acquire_token true s =
        ({ s with waiters := s.waiters + 1, requested := s.requested + 1 },
         { brokerRequests := 1, wakes := 0, dropped := [] }, true)) ∧
    (0 < s'.free →
      Proxy.acquireWake s' =
        (true,
         if s'.requested + (s'.free - 1) < s'.waiters - 1 then
           ({ s' with free := s'.free - 1, waiters := s'.waiters - 1,
                      requested := s'.requested + 1 },
            { brokerRequests := 1, wakes := 0, dropped := [] })
         else
           ({ s' with free := s'.free - 1, waiters := s'.waiters - 1 }, noEffects))) ∧
    (s'.free = 0 → Proxy.acquireWake s' = (false, s', noEffects)) := by
  refine ⟨fun hf => ?_, fun hf => ?_, fun hf => ?_, fun hf => ?_⟩
  · simp only [Proxy.acquire_token, LockedProxyData.take_token,
      LockedProxyData.request_token, noEffects, if_pos rfl]
    simp only [hf, if_pos hf]
    by_cases hc : s.requested + (s.free - 1) < s.waiters <;>
      simp [hc, Nat.add_sub_cancel]
  · simp [Proxy.acquire_token, LockedProxyData.take_token,
      LockedProxyData.request_token, noEffects, hf]
  · simp only [Proxy.acquireWake, LockedProxyData.take_token,
      LockedProxyData.request_token, noEffects, if_pos hf]
    by_cases hc : s'.requested + (s'.free - 1) < s'.waiters - 1 <;> simp [hc]
  · simp [Proxy.acquireWake, LockedProxyData.take_token, noEffects, hf]

/-- Witness for C5: with one free permit and two waiters the fast path
consumes the permit and pipelines one broker request; with no free
permit the caller requests one token and blocks. -/
theorem proxy_acquire_token_protocol_witness :
    Proxy.acquire_token true { free := 1, waiters := 2, requested := 0, tokens := [] } =
      ({ free := 0, waiters := 2, requested := 1, tokens := [] },
       { brokerRequests := 1, wakes := 0, dropped := [] }, false) ∧
    Proxy.acquire_token true { free := 0, waiters := 0, requested := 0, tokens := [] } =
      ({ free := 0, waiters := 1, requested := 1, tokens := [] },
       { brokerRequests := 1, wakes := 0, dropped := [] }, true) := by
  constructor
  · have h := (proxy_acquire_token_protocol
      { free := 1, waiters := 2, requested := 0, tokens := [] }
      { free := 0, waiters := 0, requested := 0, tokens := [] }).1 (by decide)
    simpa using h
  · exact (proxy_acquire_token_protocol
      { free := 0, waiters := 0, requested := 0, tokens := [] }
      { free := 0, waiters := 0, requested := 0, tokens := [] }).2.1 rfl

/-- Claim C6: with a broker present, `return_token` either recycles the
permit to a waiter (`free += 1`, exactly one wake, no broker contact, no
change to the stored handles), or — with no waiters — drops exactly the
most recently stored token handle back to the broker leaving `free`
unchanged, or — with no waiters and no stored handle — marks the
implicit permit free again without any external effect. -/
theorem proxy_return_token_cases (s : LockedProxyData) (t : Nat) (ts : List Nat) :
    (0 < s.waiters →
      Proxy.return_token true s =
        ({ s with free := s.free + 1 },
         { brokerRequests := 0, wakes := 1, dropped := [] })) ∧
    (s.waiters = 0 → s.tokens = ts ++ [t] →
      Proxy.return_token true s =
        ({ s with tokens := ts },
         { brokerRequests := 0, wakes := 0, dropped := [t] })) ∧
    (s.waiters = 0 → s.tokens = [] →
      Proxy.return_token true s = ({ s with free := s.free + 1 }, noEffects)) := by
  refine ⟨fun hw => ?_, fun hw htok => ?_, fun hw htok => ?_⟩
  · simp [Proxy.return_token, LockedProxyData.return_token, hw]
  · simp [Proxy.return_token, LockedProxyData.return_token, hw, htok,
      List.getLast?_concat, List.dropLast_concat]
  · simp [Proxy.return_token, LockedProxyData.return_token, hw, htok, noEffects]

/-- Witness for C6 on the three concrete state shapes. -/
theorem proxy_return_token_cases_witness :
    Proxy.return_token true { free := 0, waiters := 1, requested := 0, tokens := [5] } =
      ({ free := 1, waiters := 1, requested := 0, tokens := [5] },
       { brokerRequests := 0, wakes := 1, dropped := [] }) ∧
    Proxy.return_token true { free := 2, waiters := 0, requested := 0, tokens := [3, 4] } =
      ({ free := 2, waiters := 0, requested := 0, tokens := [3] },
       { brokerRequests := 0, wakes := 0, dropped := [4] }) ∧
    Proxy.return_token true { free := 1, waiters := 0, requested := 0, tokens := [] } =
      ({ free := 2, waiters := 0, requested := 0, tokens := [] }, noEffects) := by
  refine ⟨?_, ?_, ?_⟩
  · have h := (proxy_return_token_cases
      { free := 0, waiters := 1, requested := 0, tokens := [5] } 0 []).1 (by decide)
    simpa using h
  · have h := (proxy_return_token_cases
      { free := 2, waiters := 0, requested := 0, tokens := [3, 4] } 4 [3]).2.1 rfl rfl
    simpa using h
  · have h := (proxy_return_token_cases
      { free := 1, waiters := 0, requested := 0, tokens := [] } 0 []).2.2 rfl rfl
    simpa using h

/-- Claim C7: the asynchronous grant callback decrements `requested` by
exactly one; with waiters present it keeps the token (`free += 1`,
handle appended to the stored sequence) and wakes exactly one waiter;
with no waiters it drops the handle straight back to the broker, leaving
`free` and the stored sequence unchanged. -/
theorem proxy_grant_callback (s : LockedProxyData) (t : Nat) (hreq : 0 < s.requested) :
    (s.requested - 1) + 1 = s.requested ∧
    (0 < s.waiters →
      LockedProxyData.new_requested_token s t =
        ({ s with requested := s.requested - 1, free := s.free + 1,
                  tokens := s.tokens ++ [t] },
         { brokerRequests := 0, wakes := 1, dropped := [] })) ∧
    (s.waiters = 0 →
      LockedProxyData.new_requested_token s t =
        ({ s with requested := s.requested - 1 },
         { brokerRequests := 0, wakes := 0, dropped := [t] })) := by
  refine ⟨by omega, fun hw => ?_, fun hw => ?_⟩
  · simp [LockedProxyData.new_requested_token, hw]
  · simp [LockedProxyData.new_requested_token, hw]

/-- Witness for C7 on both concrete state shapes. -/
theorem proxy_grant_callback_witness :
    LockedProxyData.new_requested_token
      { free := 0, waiters := 2, requested := 1, tokens := [] } 8 =
      ({ free := 1, waiters := 2, requested := 0, tokens := [8] },
       { brokerRequests := 0, wakes := 1, dropped := [] }) ∧
    LockedProxyData.new_requested_token
      { free := 0, waiters := 0, requested := 1, tokens := [] } 8 =
      ({ free := 0, waiters := 0, requested := 0, tokens := [] },
       { brokerRequests := 0, wakes := 0, dropped := [8] }) := by
  constructor
  · have h := (proxy_grant_callback
      { free := 0, waiters := 2, requested := 1, tokens := [] } 8 (by decide)).2.1 (by decide)
    simpa using h
  · have h := (proxy_grant_callback
      { free := 0, waiters := 0, requested := 1, tokens := [] } 8 (by decide)).2.2 rfl
    simpa using h

/-- Claim C8: `tlv::with(value, f)` runs `f` with the ambient cell set to
`value`, and on every exit path — normal return or unwind — the `Reset`
guard restores the cell to exactly the value it held before the call;
on a normal return the closure's result is passed through. -/
theorem tlv_with_scoped_override {R : Type} (cur value : Nat) (fOps : List TlvOp)
    (fres : Except PanicPayload R) :
    (tlvWith cur value fOps fres).2 = cur ∧
    (tlvWith cur value fOps fres).1 = fres ∧
    tlvApply cur (TlvOp.setOp value) = value :=
  ⟨rfl, rfl, rfl⟩

/-- Claim C9: `current()` (the target of `Deref`) panics with the
wrong-thread message when called from a non-worker thread or from a
worker of a different pool; called from worker index `i` of the
originating pool it returns the slot at index `i`, which is in bounds
because the storage was built with exactly one slot per worker index of
that pool. -/
theorem workerLocal_current_access {T : Type} (reg : Registry) (initial : Nat → T)
    (w wbad : WorkerThreadState) (hgood : w.registryId = reg.id)
    (hidx : w.index < reg.num_threads) (hbad : wbad.registryId ≠ reg.id) :
    WorkerLocal.current (WorkerLocal.new reg initial) none = .error wrongThreadMsg ∧
    WorkerLocal.current (WorkerLocal.new reg initial) (some wbad) = .error wrongThreadMsg ∧
    WorkerLocal.current (WorkerLocal.new reg initial) (some w) =
      .ok (some (initial w.index)) ∧
    w.index < (WorkerLocal.new reg initial).locals.length ∧
    (WorkerLocal.new reg initial).locals.length = reg.num_threads := by
  refine ⟨rfl, ?_, ?_, ?_, by simp [WorkerLocal.new]⟩
  · simp [WorkerLocal.current, thread_check, WorkerLocal.new, hbad]
  · simp only [WorkerLocal.current, thread_check, hgood, ne_eq, not_true_eq_false,
      if_false, WorkerLocal.new]
    rw [List.getElem?_map, List.getElem?_range hidx]
    rfl
  · simpa [WorkerLocal.new] using hidx

/-- Witness for C9: a two-worker pool with identity 1; worker 1 of that
pool reads its own slot, a worker of pool 2 and a non-worker thread trip
the fatal check. -/
theorem workerLocal_current_access_witness :
    WorkerLocal.current (WorkerLocal.new { id := 1, num_threads := 2 } (fun i => i * 10))
      none = .error wrongThreadMsg ∧
    WorkerLocal.current (WorkerLocal.new { id := 1, num_threads := 2 } (fun i => i * 10))
      (some { registryId := 2, index := 0 }) = .error wrongThreadMsg ∧
    WorkerLocal.current (WorkerLocal.new { id := 1, num_threads := 2 } (fun i => i * 10))
      (some { registryId := 1, index := 1 }) = .ok (some 10) := by
  have h := workerLocal_current_access { id := 1, num_threads := 2 } (fun i => i * 10)
    { registryId := 1, index := 1 } { registryId := 2, index := 0 }
    rfl (by decide) (by decide)
  exact ⟨h.1, h.2.1, h.2.2.1⟩

end RayonCore
